import Mathlib

/-
Shallow embedding of the SceneGraph connection model and its interactive
connection-making protocol, translated from src/core/nodes.py and
src/ui/graphics.py.  Coordinates are modelled as integer points (the claims
never depend on real-valued geometry), Python object identity is modelled by
stable integer ids, and the widget classes are modelled as flat records.
Parts of the repository that the claims need but that are not under src/
(the core `Graph` class and `node_widgets.py`) are modelled from the spec;
each such definition says so in its doc comment.
-/

namespace SceneGraph

/-- A scene-space point (models QPointF; the claims need no real arithmetic). -/
structure Point where
  x : Int
  y : Int
deriving DecidableEq, Repr

/-- A line segment, models the QLineF held by the provisional
QGraphicsLineItem (`p1` = origin, `p2` = provisional endpoint). -/
structure Seg where
  p1 : Point
  p2 : Point
deriving DecidableEq, Repr

/-- A connection widget (a terminal).  Mirrors `ConnectionNode` from
src/core/nodes.py lines 149-190: `isInputConnection` and `isOutputConnection`
both default to false on the base class, `NodeInput` sets the first,
`NodeOutput` the second.  `cid` models object identity of the terminal,
`nodeId` models `dagnode.id` of the owning node, `is_connectable` models the
connectable-limit flag read by `validateConnection`, and `center` models
`sceneBoundingRect().center()`. -/
structure Connection where
  cid : Nat
  nodeId : Nat
  isInputConnection : Bool
  isOutputConnection : Bool
  is_connectable : Bool
  center : Point
deriving DecidableEq, Repr

/-- The two endpoint references stored by `LineClass` (src/core/nodes.py). -/
structure LineEnds where
  myStartItem : Connection
  myEndItem : Connection
deriving DecidableEq, Repr

/-- `LineClass.__init__` endpoint normalization (src/core/nodes.py lines
196-226): after storing `startItem`/`endItem`, if the start item is an input
connection the two references are swapped, so the stored start is never the
input end of the pair.  (The AttributeError guard around the check cannot
fire here: every `Connection` carries the flag.) -/
def LineClass.init (startItem endItem : Connection) : LineEnds :=
  if startItem.isInputConnection then
    { myStartItem := endItem, myEndItem := startItem }
  else
    { myStartItem := startItem, myEndItem := endItem }

/-- The two endpoints' `connectedLine` registries of a single line, as lists
of line ids (Python stores the line objects themselves; we store ids, and
`n` occurrences of the id model `n` list entries of the same object). -/
structure LineLists where
  startLines : List Nat
  endLines : List Nat
deriving DecidableEq, Repr

/-- `LineClass.updatePosition` (src/core/nodes.py lines 265-268): besides
resetting the geometry it appends `self` to both endpoints' `connectedLine`
lists, unconditionally, on every call. -/
def LineClass.updatePosition (a : Nat) (p : LineLists) : LineLists :=
  { startLines := p.startLines ++ [a], endLines := p.endLines ++ [a] }

/-- `LineClass.deleteNode` (src/core/nodes.py lines 231-239): removes the
line item from the scene and calls `list.remove(self)` on both endpoints'
`connectedLine` lists; `list.remove` drops the first occurrence only, which
`List.erase` models. -/
def LineClass.deleteNode (a : Nat) (p : LineLists) : LineLists :=
  { startLines := p.startLines.erase a, endLines := p.endLines.erase a }

/-- `n`-fold iteration of `LineClass.updatePosition`. -/
def LineClass.updatePositionN (a : Nat) : Nat → LineLists → LineLists
  | 0, p => p
  | n + 1, p => LineClass.updatePositionN a n (LineClass.updatePosition a p)

theorem updatePositionN_count (a : Nat) (n : Nat) (p : LineLists) :
    (LineClass.updatePositionN a n p).startLines.count a
        = p.startLines.count a + n
      ∧ (LineClass.updatePositionN a n p).endLines.count a
        = p.endLines.count a + n := by
  induction n generalizing p with
  | zero => simp [LineClass.updatePositionN]
  | succ n ih =>
    have h := ih (LineClass.updatePosition a p)
    simp only [LineClass.updatePositionN, LineClass.updatePosition,
      List.count_append, List.count_singleton, beq_self_eq_true, if_true] at h ⊢
    omega

/-- C9: constructing a line whose start item is an input connection swaps the
endpoints: the stored `myStartItem` is the original end item and `myEndItem`
the original start item; and when the other endpoint is not also an input,
the stored line runs from a non-input item toward an input item. -/
theorem c9_init_swaps_input_start (startItem endItem : Connection)
    (h : startItem.isInputConnection = true) :
    (LineClass.init startItem endItem).myStartItem = endItem
      ∧ (LineClass.init startItem endItem).myEndItem = startItem
      ∧ (endItem.isInputConnection = false →
          (LineClass.init startItem endItem).myStartItem.isInputConnection = false
            ∧ (LineClass.init startItem endItem).myEndItem.isInputConnection = true) := by
  refine ⟨?_, ?_, fun h2 => ⟨?_, ?_⟩⟩
  · simp [LineClass.init, h]
  · simp [LineClass.init, h]
  · simp [LineClass.init, h, h2]
  · simp [LineClass.init, h]

theorem c9_init_swaps_input_start_witness :
    (LineClass.init ⟨1, 1, true, false, true, ⟨0, 0⟩⟩ ⟨2, 2, false, true, true, ⟨5, 5⟩⟩).myStartItem
      = ⟨2, 2, false, true, true, ⟨5, 5⟩⟩ :=
  (c9_init_swaps_input_start ⟨1, 1, true, false, true, ⟨0, 0⟩⟩
    ⟨2, 2, false, true, true, ⟨5, 5⟩⟩ rfl).1

/-- C10: line-to-terminal registration is not idempotent.  Starting from
empty registries, `n` calls of `updatePosition` leave `n` occurrences of the
line in both endpoints' `connectedLine` lists, while one `deleteNode` removes
exactly one occurrence from each list. -/
theorem c10_registration_not_idempotent (a n : Nat) (p : LineLists)
    (h1 : a ∈ p.startLines) (h2 : a ∈ p.endLines) :
    ((LineClass.updatePositionN a n ⟨[], []⟩).startLines.count a = n
        ∧ (LineClass.updatePositionN a n ⟨[], []⟩).endLines.count a = n)
      ∧ ((LineClass.deleteNode a p).startLines.count a = p.startLines.count a - 1
        ∧ (LineClass.deleteNode a p).endLines.count a = p.endLines.count a - 1) := by
  refine ⟨⟨?_, ?_⟩, ?_, ?_⟩
  · simpa using (updatePositionN_count a n ⟨[], []⟩).1
  · simpa using (updatePositionN_count a n ⟨[], []⟩).2
  · exact List.count_erase_self a p.startLines
  · exact List.count_erase_self a p.endLines

theorem c10_registration_not_idempotent_witness :
    (LineClass.updatePositionN 0 3 ⟨[], []⟩).startLines.count 0 = 3 :=
  (c10_registration_not_idempotent 0 3 ⟨[0], [0]⟩ (by decide) (by decide)).1.1

/-- An edge record of the dag graph model: the edge id and the ids of its two
endpoint terminals. -/
structure GEdge where
  id : Nat
  srcTerm : Nat
  destTerm : Nat
deriving DecidableEq, Repr

/-- The dag graph model held in `self.graph`: its edge map (as a list of edge
records) and the fresh-id counter used when a new edge is allocated. -/
structure Graph where
  edges : List GEdge
  nextId : Nat
deriving DecidableEq, Repr

/-- Modelled from the spec: `Graph.removeEdge` (the core `Graph` class is not
under src/).  Per section 4.1 it fails with NotFound when the id is absent and
otherwise unregisters the edge from both endpoint terminals and removes it
from the edge map; the boolean component is the success flag the callers in
src/ui/graphics.py test.  Terminal attachment is the derived view
`Graph.attachedTo`, so removal from the edge map unregisters both ends. -/
def Graph.removeEdge (g : Graph) (eid : Nat) : Bool × Graph :=
  if g.edges.any (fun e => e.id == eid) then
    (true, { g with edges := g.edges.filter (fun e => e.id != eid) })
  else
    (false, g)

/-- The edge ids attached to a terminal, derived from the edge map (the
spec's bidirectional-registration invariant makes this the attached-edge set
of the terminal). -/
def Graph.attachedTo (g : Graph) (term : Nat) : List Nat :=
  (g.edges.filter (fun e => e.srcTerm == term || e.destTerm == term)).map (fun e => e.id)

/-- Modelled from the spec: `Graph.addEdge` (the core `Graph` class is not
under src/).  Per section 4.1 it creates the edge, registers it on both
terminals and inserts it into the edge map when source is an Output, dest is
an Input and the nodes differ; otherwise it fails and the model is left
unchanged. -/
def Graph.addEdge (g : Graph) (src dest : Connection) : Graph :=
  if src.isOutputConnection && dest.isInputConnection
      && (src.nodeId != dest.nodeId) then
    { edges := g.edges ++ [⟨g.nextId, src.cid, dest.cid⟩], nextId := g.nextId + 1 }
  else
    g

/-- The rejection reasons of `GraphicsScene.validateConnection`
(src/ui/graphics.py lines 682-728).  Each constructor corresponds to one
`return False` site and its print/log message: the wrong-type check, the
invalid-connection-order check, the same-node check and the
not-connectable check. -/
inductive Reason
  | wrongType
  | invalidDirection
  | sameNode
  | notConnectable
deriving DecidableEq, Repr

/-- An item returned by a scene hit-test: a connection widget, a node widget
(with its id), or the provisional QGraphicsLineItem itself. -/
inductive Widget
  | conn (c : Connection)
  | nodeW (id : Nat)
  | lineItem
deriving DecidableEq, Repr

/-- The forced-eviction loop of `validateConnection`: for each edge id
attached to the destination, `self.graph.removeEdge` is called; a failed
removal is only logged and the loop continues. -/
def evict (g : Graph) : List Nat → Graph
  | [] => g
  | eid :: rest => evict (g.removeEdge eid).2 rest

/-- `GraphicsScene.validateConnection` (src/ui/graphics.py lines 682-728).
`lineActive` models the truthiness of `self.line` guarding the whole rule
body; `connsOf` maps a connection widget id to the edge ids of its
`connections.values()` (the widget registry lives in node_widgets.py, which
is not under src/, so the attached-edge view is passed in).  The result is
the verdict (`none` models `return True`, `some r` a `return False` site)
together with the graph, which the eviction loop mutates.  Every connection
widget carries `is_connectable`, so the `hasattr` guard is always taken. -/
def validateConnection (lineActive : Bool) (src dest : Widget)
    (connsOf : Nat → List Nat) (force : Bool) (g : Graph) :
    Option Reason × Graph :=
  if lineActive then
    match src, dest with
    | Widget.conn s, Widget.conn d =>
      if s.isInputConnection || d.isOutputConnection then
        (some Reason.invalidDirection, g)
      else if s.nodeId == d.nodeId then
        (some Reason.sameNode, g)
      else if !d.is_connectable then
        if !force then
          (some Reason.notConnectable, g)
        else
          (none, evict g (connsOf d.cid))
      else
        (none, g)
    | _, _ => (some Reason.wrongType, g)
  else
    (none, g)

theorem removeEdge_snd_edges (g : Graph) (eid : Nat) :
    ((g.removeEdge eid).2).edges = g.edges.filter (fun e => e.id != eid) := by
  unfold Graph.removeEdge
  split
  · rfl
  next h =>
    simp only [List.any_eq_true, not_exists, not_and] at h
    refine (List.filter_eq_self.mpr ?_).symm
    intro e he
    have := h e he
    simpa [bne_iff_ne] using this

theorem mem_evict (g : Graph) (l : List Nat) (e : GEdge) :
    e ∈ (evict g l).edges ↔ e ∈ g.edges ∧ e.id ∉ l := by
  induction l generalizing g with
  | nil => simp [evict]
  | cons b rest ih =>
    rw [evict, ih, removeEdge_snd_edges]
    simp only [List.mem_filter, bne_iff_ne, ne_eq, List.mem_cons, decide_eq_true_eq]
    tauto

/-- C2 counterexample: a source widget that is neither an Input nor an Output
connection (the `ConnectionNode` base state, src/core/nodes.py lines 149-162)
paired with an Input destination is approved by `validateConnection`, not
rejected with InvalidDirection. -/
theorem c2_neither_terminal_approved :
    (validateConnection true
        (Widget.conn ⟨1, 1, false, false, true, ⟨0, 0⟩⟩)
        (Widget.conn ⟨2, 2, true, false, true, ⟨4, 4⟩⟩)
        (fun _ => []) true ⟨[], 0⟩).1 = none
      ∧ (⟨1, 1, false, false, true, ⟨0, 0⟩⟩ : Connection).isOutputConnection = false
      ∧ (⟨1, 1, false, false, true, ⟨0, 0⟩⟩ : Connection).isInputConnection = false := by
  refine ⟨rfl, rfl, rfl⟩

/-- C2 (amended): while a line is being drawn, `validateConnection` rejects a
pair of connection widgets with InvalidDirection exactly when the source is
an Input connection or the destination is an Output connection; a terminal
with neither flag set passes the direction check. -/
theorem c2_direction_check_iff (s d : Connection) (connsOf : Nat → List Nat)
    (force : Bool) (g : Graph) :
    (validateConnection true (Widget.conn s) (Widget.conn d) connsOf force g).1
        = some Reason.invalidDirection
      ↔ (s.isInputConnection = true ∨ d.isOutputConnection = true) := by
  constructor
  · intro hEq
    by_contra hcon
    push_neg at hcon
    obtain ⟨hs, hd⟩ := hcon
    have hs' : s.isInputConnection = false := by simpa using hs
    have hd' : d.isOutputConnection = false := by simpa using hd
    by_cases hn : (s.nodeId == d.nodeId) = true
    · simp [validateConnection, hs', hd', hn] at hEq
    · have hn' : (s.nodeId == d.nodeId) = false := by simpa using hn
      by_cases hc : d.is_connectable
      · simp [validateConnection, hs', hd', hn', hc] at hEq
      · have hc' : d.is_connectable = false := by simpa using hc
        by_cases hf : force
        · simp [validateConnection, hs', hd', hn', hc', hf] at hEq
        · have hf' : force = false := by simpa using hf
          simp [validateConnection, hs', hd', hn', hc', hf'] at hEq
  · intro h
    rcases h with h' | h'
    · simp [validateConnection, h']
    · simp [validateConnection, h']

/-- C3: when validation reaches the connectable rule — a line is being drawn,
both hit items are connection widgets, and the direction and same-node checks
pass — with a non-connectable destination that has at least one attached
edge: with force=false the call rejects with NotConnectable and leaves the
graph (hence every attached edge) untouched; with force=true the call
approves and every edge attached to the destination is gone from the graph,
whether or not each individual removal succeeded. -/
theorem c3_not_connectable_rule (s d : Connection) (connsOf : Nat → List Nat)
    (g : Graph)
    (hIn : s.isInputConnection = false) (hOut : d.isOutputConnection = false)
    (hNode : s.nodeId ≠ d.nodeId) (hConn : d.is_connectable = false)
    (hEdges : connsOf d.cid ≠ []) :
    validateConnection true (Widget.conn s) (Widget.conn d) connsOf false g
        = (some Reason.notConnectable, g)
      ∧ (validateConnection true (Widget.conn s) (Widget.conn d) connsOf true g).1
        = none
      ∧ ∀ eid ∈ connsOf d.cid,
          ∀ e ∈ (validateConnection true (Widget.conn s) (Widget.conn d) connsOf true g).2.edges,
            e.id ≠ eid := by
  have hbeq : (s.nodeId == d.nodeId) = false := by
    simpa using hNode
  refine ⟨?_, ?_, ?_⟩
  · simp [validateConnection, hIn, hOut, hbeq, hConn]
  · simp [validateConnection, hIn, hOut, hbeq, hConn]
  · intro eid hmem e he
    simp only [validateConnection, hIn, hOut, hbeq, hConn, Bool.or_self,
      if_false, Bool.not_false, Bool.not_true, if_true] at he
    have := (mem_evict g (connsOf d.cid) e).mp (by simpa using he)
    intro hEq
    exact this.2 (hEq ▸ hmem)

theorem c3_not_connectable_rule_witness :
    validateConnection true
        (Widget.conn ⟨1, 1, false, true, true, ⟨0, 0⟩⟩)
        (Widget.conn ⟨2, 2, true, false, false, ⟨4, 4⟩⟩)
        (fun _ => [5]) false ⟨[⟨5, 1, 2⟩], 6⟩
      = (some Reason.notConnectable, ⟨[⟨5, 1, 2⟩], 6⟩) :=
  (c3_not_connectable_rule ⟨1, 1, false, true, true, ⟨0, 0⟩⟩
    ⟨2, 2, true, false, false, ⟨4, 4⟩⟩ (fun _ => [5]) ⟨[⟨5, 1, 2⟩], 6⟩
    rfl rfl (by decide) rfl (by decide)).1

/-- C4: whenever the submitted pair fails the direction check or the
same-node check, `validateConnection` performs no eviction: the graph
component of the result is the input graph, for any force flag and any
drawing state, so a doomed connection never evicts an existing edge. -/
theorem c4_short_circuit_no_eviction (lineActive : Bool) (s d : Connection)
    (connsOf : Nat → List Nat) (force : Bool) (g : Graph)
    (h : s.isInputConnection = true ∨ d.isOutputConnection = true
      ∨ s.nodeId = d.nodeId) :
    (validateConnection lineActive (Widget.conn s) (Widget.conn d) connsOf force g).2
      = g := by
  cases lineActive with
  | false => rfl
  | true =>
    rcases h with h' | h' | h'
    · simp [validateConnection, h']
    · simp [validateConnection, h']
    · have hbeq : (s.nodeId == d.nodeId) = true := by simpa using h'
      by_cases hd : (s.isInputConnection || d.isOutputConnection) = true
      · simp [validateConnection, hd]
      · simp only [Bool.or_eq_true, not_or] at hd
        have hs : s.isInputConnection = false := by simpa using hd.1
        have hdo : d.isOutputConnection = false := by simpa using hd.2
        simp [validateConnection, hs, hdo, hbeq]

theorem c4_short_circuit_no_eviction_witness :
    (validateConnection true
        (Widget.conn ⟨1, 1, true, false, true, ⟨0, 0⟩⟩)
        (Widget.conn ⟨2, 2, true, false, false, ⟨4, 4⟩⟩)
        (fun _ => [5]) true ⟨[⟨5, 9, 2⟩], 6⟩).2
      = ⟨[⟨5, 9, 2⟩], 6⟩ :=
  c4_short_circuit_no_eviction true ⟨1, 1, true, false, true, ⟨0, 0⟩⟩
    ⟨2, 2, true, false, false, ⟨4, 4⟩⟩ (fun _ => [5]) true ⟨[⟨5, 9, 2⟩], 6⟩
    (Or.inl rfl)

/-- C7 counterexample: the same argument triple (src, dest, force) gets
different verdicts depending on the transient drawing state: with a
provisional line active an Input-to-Output pair is rejected with
InvalidDirection, while with no line being drawn the very same call
approves. -/
theorem c7_verdict_depends_on_line_state :
    (validateConnection true
        (Widget.conn ⟨3, 3, true, false, true, ⟨0, 0⟩⟩)
        (Widget.conn ⟨4, 4, false, true, true, ⟨1, 1⟩⟩)
        (fun _ => []) true ⟨[], 0⟩).1 = some Reason.invalidDirection
      ∧ (validateConnection false
        (Widget.conn ⟨3, 3, true, false, true, ⟨0, 0⟩⟩)
        (Widget.conn ⟨4, 4, false, true, true, ⟨1, 1⟩⟩)
        (fun _ => []) true ⟨[], 0⟩).1 = none := by
  refine ⟨rfl, rfl⟩

/-- C7 (amended): validation is not independent of the session's drawing
state — the entire rule body is gated on the provisional line, so whenever no
line is being drawn `validateConnection` approves every request and leaves
the graph untouched; the rule set only applies while a line is active. -/
theorem c7_no_line_always_approves (src dest : Widget)
    (connsOf : Nat → List Nat) (force : Bool) (g : Graph) :
    validateConnection false src dest connsOf force g = (none, g) :=
  rfl

/-- An edge widget, as stored in a terminal's `connections` dict: its dag
edge id and its two endpoint connection widgets, oriented the way
`LineClass.__init__` normalizes them (start is the non-input end). -/
structure EdgeW where
  eid : Nat
  myStartItem : Connection
  myEndItem : Connection
deriving DecidableEq, Repr

/-- The edge widget's `getLine` (the claim's source is `LineClass.getLine`,
src/core/nodes.py lines 254-257): a segment from the start item's scene
center to the end item's scene center (`mapFromScene` of an item at the scene
origin is the identity, which the model takes). -/
def EdgeW.getLine (e : EdgeW) : Seg :=
  { p1 := e.myStartItem.center, p2 := e.myEndItem.center }

/-- Modelled from the spec: `Edge.disconnect_terminal` (node_widgets.py is
not under src/).  Section 4.4 case 1b's detach step always succeeds, so the
boolean the caller tests is `true`. -/
def disconnect_terminal (_e : EdgeW) (_c : Connection) : Bool :=
  true

/-- The GraphicsScene state the connection gesture reads and writes:
`line` is the provisional QGraphicsLineItem's segment (`none` models
`self.line = None`), `lineInScene` whether that item is currently added to
the scene, and `graph` the dag graph model. -/
structure SceneState where
  line : Option Seg
  lineInScene : Bool
  graph : Graph
deriving DecidableEq, Repr

/-- `GraphicsScene.mousePressEvent` (src/ui/graphics.py lines 556-594) for a
left-button press whose `itemAt` result is `item`; `itemConns` is the pressed
widget's `connections.values()` as edge widgets.  An output connection starts
a fresh provisional line at the press position; an input connection carrying
exactly one edge widget disconnects it, removes its dag edge from the graph
and starts the provisional line at `p1` of the detached edge's line. -/
def mousePressEvent (st : SceneState) (item : Widget) (itemConns : List EdgeW)
    (pos : Point) : SceneState :=
  match item with
  | Widget.conn c =>
    let st1 :=
      if c.isOutputConnection then
        { st with line := some ⟨pos, pos⟩, lineInScene := true }
      else st
    if c.isInputConnection then
      match itemConns with
      | [e] =>
        if disconnect_terminal e c then
          { st1 with
            line := some ⟨(EdgeW.getLine e).p1, pos⟩
            lineInScene := true
            graph := (st1.graph.removeEdge e.eid).2 }
        else st1
      | _ => st1
    else st1
  | _ => st

/-- `GraphicsScene.mouseMoveEvent` (src/ui/graphics.py lines 596-610): while
a line is being drawn, its second endpoint follows the pointer. -/
def mouseMoveEvent (st : SceneState) (pos : Point) : SceneState :=
  match st.line with
  | some seg => { st with line := some ⟨seg.p1, pos⟩ }
  | none => st

/-- The hit-list adjustment at the top of `mouseReleaseEvent`: the
provisional line item is popped when it is the first item under the point. -/
def popLine (items : List Widget) : List Widget :=
  match items with
  | Widget.lineItem :: rest => rest
  | l => l

/-- `GraphicsScene.mouseReleaseEvent` (src/ui/graphics.py lines 612-644).
`sourceItems` and `destItems` are the hit-test results at the provisional
line's two endpoints.  The handler removes the line item from the scene,
and when both (popped) lists are non-empty and both heads are connection
widgets it validates (with the force default `True`) and on approval calls
`self.graph.addEdge`; when a head is not a connection widget the handler
returns early — on that one path `self.line` is not reset. -/
def mouseReleaseEvent (st : SceneState) (sourceItems destItems : List Widget)
    (connsOf : Nat → List Nat) : SceneState :=
  match st.line with
  | none => { st with line := none }
  | some _ =>
    let srcIt := popLine sourceItems
    let dstIt := popLine destItems
    let st1 : SceneState := { st with lineInScene := false }
    match srcIt, dstIt with
    | s0 :: _, d0 :: _ =>
      match s0, d0 with
      | Widget.conn s, Widget.conn d =>
        let r := validateConnection true (Widget.conn s) (Widget.conn d)
          connsOf true st1.graph
        if r.1 = none then
          { st1 with line := none, graph := Graph.addEdge r.2 s d }
        else
          { st1 with line := none, graph := r.2 }
      | _, _ => st1
    | _, _ => { st1 with line := none }

/-- C1 — the code contradicts the claim: on a release where both hit-tests
return an item but the destination head is a node widget rather than a
connection widget, the handler removes the provisional line item from the
scene and then returns early, leaving the session's line reference still set:
the session is not back in Idle.  Evaluated at a concrete failing input. -/
theorem c1_release_keeps_stale_line :
    mouseReleaseEvent
        ⟨some ⟨⟨0, 0⟩, ⟨5, 5⟩⟩, true, ⟨[], 0⟩⟩
        [Widget.conn ⟨1, 1, false, true, true, ⟨0, 0⟩⟩]
        [Widget.nodeW 9]
        (fun _ => [])
      = ⟨some ⟨⟨0, 0⟩, ⟨5, 5⟩⟩, false, ⟨[], 0⟩⟩ := by
  rfl

/-- C5: a press on an input connection widget carrying exactly one edge
widget `e` detaches `e` during the press: the dag edge is removed from the
graph and thereby unregistered from every terminal's attached-edge view, and
the new provisional line's origin is the center of `e`'s start item — the
surviving endpoint, the one that is not the pressed input terminal. -/
theorem c5_press_detaches_edge (st : SceneState) (c : Connection) (e : EdgeW)
    (pos : Point)
    (hIn : c.isInputConnection = true) (hOut : c.isOutputConnection = false)
    (hEnd : e.myEndItem = c) (hNe : e.myStartItem.cid ≠ c.cid) :
    (mousePressEvent st (Widget.conn c) [e] pos).line
        = some ⟨e.myStartItem.center, pos⟩
      ∧ (∀ ge ∈ (mousePressEvent st (Widget.conn c) [e] pos).graph.edges,
          ge.id ≠ e.eid)
      ∧ (∀ t, e.eid ∉ (mousePressEvent st (Widget.conn c) [e] pos).graph.attachedTo t) := by
  have hp : mousePressEvent st (Widget.conn c) [e] pos
      = { st with
          line := some ⟨e.myStartItem.center, pos⟩
          lineInScene := true
          graph := (st.graph.removeEdge e.eid).2 } := by
    simp [mousePressEvent, hIn, hOut, disconnect_terminal, EdgeW.getLine]
  refine ⟨?_, ?_, ?_⟩
  · rw [hp]
  · intro ge hge
    rw [hp] at hge
    simp only [removeEdge_snd_edges, List.mem_filter, bne_iff_ne, ne_eq,
      decide_eq_true_eq] at hge
    exact hge.2
  · intro t hmem
    rw [hp] at hmem
    simp only [Graph.attachedTo, removeEdge_snd_edges, List.mem_map,
      List.mem_filter, bne_iff_ne, ne_eq, decide_eq_true_eq] at hmem
    obtain ⟨ge, ⟨⟨_, hne⟩, _⟩, hid⟩ := hmem
    exact hne hid

theorem c5_press_detaches_edge_witness :
    (mousePressEvent ⟨none, false, ⟨[⟨3, 11, 10⟩], 4⟩⟩
        (Widget.conn ⟨10, 1, true, false, true, ⟨0, 0⟩⟩)
        [⟨3, ⟨11, 2, false, true, true, ⟨7, 7⟩⟩, ⟨10, 1, true, false, true, ⟨0, 0⟩⟩⟩]
        ⟨3, 4⟩).line
      = some ⟨⟨7, 7⟩, ⟨3, 4⟩⟩ :=
  (c5_press_detaches_edge ⟨none, false, ⟨[⟨3, 11, 10⟩], 4⟩⟩
    ⟨10, 1, true, false, true, ⟨0, 0⟩⟩
    ⟨3, ⟨11, 2, false, true, true, ⟨7, 7⟩⟩, ⟨10, 1, true, false, true, ⟨0, 0⟩⟩⟩
    ⟨3, 4⟩ rfl rfl rfl (by decide)).1

/-- C6: a Drawing session started by detaching the single edge of an input
terminal, followed by a release whose hit-tests find nothing but (at most)
the provisional line itself: the release mutates nothing — the graph stays
exactly as the press left it, which is the original graph without the
detached edge; the detached edge is not restored and no new edge appears, and
the session returns to Idle. -/
theorem c6_detach_then_empty_release (st : SceneState) (c : Connection)
    (e : EdgeW) (pos : Point) (sourceItems destItems : List Widget)
    (connsOf : Nat → List Nat)
    (hIn : c.isInputConnection = true) (hOut : c.isOutputConnection = false)
    (hSrc : popLine sourceItems = []) (hDst : popLine destItems = []) :
    (mouseReleaseEvent (mousePressEvent st (Widget.conn c) [e] pos)
        sourceItems destItems connsOf).graph
        = (mousePressEvent st (Widget.conn c) [e] pos).graph
      ∧ (mouseReleaseEvent (mousePressEvent st (Widget.conn c) [e] pos)
          sourceItems destItems connsOf).graph.edges
        = st.graph.edges.filter (fun ge => ge.id != e.eid)
      ∧ (∀ ge ∈ (mouseReleaseEvent (mousePressEvent st (Widget.conn c) [e] pos)
          sourceItems destItems connsOf).graph.edges, ge.id ≠ e.eid)
      ∧ (mouseReleaseEvent (mousePressEvent st (Widget.conn c) [e] pos)
          sourceItems destItems connsOf).line = none := by
  have hp : mousePressEvent st (Widget.conn c) [e] pos
      = { st with
          line := some ⟨e.myStartItem.center, pos⟩
          lineInScene := true
          graph := (st.graph.removeEdge e.eid).2 } := by
    simp [mousePressEvent, hIn, hOut, disconnect_terminal, EdgeW.getLine]
  have hr : mouseReleaseEvent (mousePressEvent st (Widget.conn c) [e] pos)
      sourceItems destItems connsOf
      = { st with
          line := none
          lineInScene := false
          graph := (st.graph.removeEdge e.eid).2 } := by
    rw [hp]
    simp [mouseReleaseEvent, hSrc, hDst]
  refine ⟨?_, ?_, ?_, ?_⟩
  · rw [hr, hp]
  · rw [hr]
    exact removeEdge_snd_edges st.graph e.eid
  · intro ge hge
    rw [hr] at hge
    simp only [removeEdge_snd_edges, List.mem_filter, bne_iff_ne, ne_eq,
      decide_eq_true_eq] at hge
    exact hge.2
  · rw [hr]

theorem c6_detach_then_empty_release_witness :
    (mouseReleaseEvent
        (mousePressEvent ⟨none, false, ⟨[⟨3, 11, 10⟩], 4⟩⟩
          (Widget.conn ⟨10, 1, true, false, true, ⟨0, 0⟩⟩)
          [⟨3, ⟨11, 2, false, true, true, ⟨7, 7⟩⟩, ⟨10, 1, true, false, true, ⟨0, 0⟩⟩⟩]
          ⟨3, 4⟩)
        [Widget.lineItem] [] (fun _ => [])).line = none :=
  (c6_detach_then_empty_release ⟨none, false, ⟨[⟨3, 11, 10⟩], 4⟩⟩
    ⟨10, 1, true, false, true, ⟨0, 0⟩⟩
    ⟨3, ⟨11, 2, false, true, true, ⟨7, 7⟩⟩, ⟨10, 1, true, false, true, ⟨0, 0⟩⟩⟩
    ⟨3, 4⟩ [Widget.lineItem] [] (fun _ => []) rfl rfl rfl rfl).2.2.2

/-- A node widget as registered in `self.scenenodes`; `name` models the
display name `dagnode.name` that `getNode`'s fallback scan compares
(identifiers are modelled as numbers throughout). -/
structure NodeW where
  wid : Nat
  name : Nat
deriving DecidableEq, Repr

/-- `GraphicsScene.getNode` (src/ui/graphics.py lines 455-471): exact key
match in `self.scenenodes` first, then a linear scan comparing each widget's
`dagnode.name`; when neither matches the function falls off the end and
returns `None`. -/
def getNode (scenenodes : List (Nat × NodeW)) (key : Nat) : Option NodeW :=
  match scenenodes.find? (fun p => p.1 == key) with
  | some p => some p.2
  | none =>
    match scenenodes.find? (fun p => p.2.name == key) with
    | some p => some p.2
    | none => none

/-- A `DagEdge` as `addNodes` reads it: the edge id, the endpoint node ids
`src_id`/`dest_id` and the terminal names `src_attr`/`dest_attr`. -/
structure DagEdgeRec where
  id : Nat
  src_id : Nat
  dest_id : Nat
  src_attr : Nat
  dest_attr : Nat
deriving DecidableEq, Repr

/-- The possible outcomes of presenting one edge id.  `attributeError` models
the Python AttributeError raised by calling `getOutputConnection` /
`getInputConnection` on the `None` that `getNode` returned;
`danglingReference` is the spec's error (sections 4.3 and 7), declared here
so the claim can be stated — the code never produces it. -/
inductive PresentOutcome
  | added (eid : Nat)
  | skipped
  | attributeError
  | danglingReference
deriving DecidableEq, Repr

/-- The edge branch of `GraphicsScene.addNodes` (src/ui/graphics.py lines
394-417) for a single dag id that resolves to a DagEdge: when the id is not
yet registered, both endpoint widgets are looked up with `getNode` and the
connection terminals are then requested from the lookup results — a missing
endpoint widget means a method call on `None`.  The terminal resolution and
`connect_terminal` calls live in node_widgets.py (not under src/) and are
modelled from the spec as succeeding, which the claim does not depend on. -/
def addNodesEdge (scenenodes : List (Nat × NodeW)) (dag : DagEdgeRec) :
    PresentOutcome :=
  if (scenenodes.find? (fun p => p.1 == dag.id)).isSome then
    PresentOutcome.skipped
  else
    match getNode scenenodes dag.src_id, getNode scenenodes dag.dest_id with
    | none, _ => PresentOutcome.attributeError
    | some _, none => PresentOutcome.attributeError
    | some _, some _ => PresentOutcome.added dag.id

/-- C8 counterexample: presenting an edge whose source node widget is not
registered does not fail with the spec's DanglingReference result; it ends in
the AttributeError raised from dereferencing the missing widget. -/
theorem c8_missing_endpoint_not_dangling :
    addNodesEdge [(2, ⟨2, 102⟩)] ⟨7, 1, 2, 11, 12⟩
        = PresentOutcome.attributeError
      ∧ addNodesEdge [(2, ⟨2, 102⟩)] ⟨7, 1, 2, 11, 12⟩
        ≠ PresentOutcome.danglingReference
      ∧ getNode [(2, ⟨2, 102⟩)] 1 = none := by
  decide

/-- C8 (amended): for every request to present a fresh edge id one of whose
endpoint node widgets is not yet registered, the operation fails by raising
an AttributeError on the `None` widget — an untyped exception, not a
DanglingReference error result — and the edge widget is not constructed. -/
theorem c8_missing_endpoint_attribute_error (scenenodes : List (Nat × NodeW))
    (dag : DagEdgeRec)
    (hNew : (scenenodes.find? (fun p => p.1 == dag.id)).isSome = false)
    (hMiss : getNode scenenodes dag.src_id = none
      ∨ getNode scenenodes dag.dest_id = none) :
    addNodesEdge scenenodes dag = PresentOutcome.attributeError := by
  unfold addNodesEdge
  rw [if_neg (by simp [hNew])]
  rcases hMiss with h' | h'
  · rw [h']
  · cases hsrc : getNode scenenodes dag.src_id with
    | none => rfl
    | some w => rw [h']

theorem c8_missing_endpoint_attribute_error_witness :
    addNodesEdge [(2, ⟨2, 102⟩)] ⟨9, 1, 2, 11, 12⟩
      = PresentOutcome.attributeError :=
  c8_missing_endpoint_attribute_error [(2, ⟨2, 102⟩)] ⟨9, 1, 2, 11, 12⟩
    (by decide) (Or.inl (by decide))

end SceneGraph
